import Mathlib

/-!
Shallow embedding of the Optimization Execution Engine of
`src/src/services/execution_engine.py` (together with the enums and the
execution record of `src/src/models/optimization.py`), and proofs of the
spec's claims about it.

Modelling conventions:
* Python dicts are association lists with unique keys; `dictGet`, `dictSet`,
  `dictRemove` mirror `d[k]`, `d[k] = v` and `del d[k]` (a new key is
  appended at the end, as CPython's insertion-ordered dicts do).
* A raised exception is an `Except.error` carrying the message string.
* Wall-clock fields (`started_at`, `completed_at`), metric emission
  (`log_event`, `track_metric`) and the opaque `metadata` mapping are not
  modelled: no verified property mentions them.
* Calls into `CloudProviderService` (the Resource Gateway) are resolved
  against a `GatewayEnv` describing the external world's behaviour, and the
  success or failure of each attempt of a step's phase action is an
  environment `Nat → Option String` (attempt index ↦ `none` for success,
  `some msg` for a raised exception), faithful to the catch-all
  `except Exception` of `_execute_step`.
-/

namespace CostOptimizer

/-- `ExecutionStatus` (execution_engine.py, lines 25-32). -/
inductive ExecutionStatus where
  | pending
  | running
  | completed
  | failed
  | rolledBack
  | cancelled
deriving DecidableEq, Repr

/-- `ExecutionPhase` (execution_engine.py, lines 35-43). -/
inductive ExecutionPhase where
  | preparation
  | validation
  | backup
  | execution
  | verification
  | completion
  | rollback
deriving DecidableEq, Repr

/-- `OptimizationStatus` (models/optimization.py, lines 21-30).
Note that this enum has NO rolled-back member: `ROLLED_BACK` exists only on
`ExecutionStatus`.  The attribute access `OptimizationStatus.ROLLED_BACK` at
line 566 of execution_engine.py therefore raises `AttributeError`. -/
inductive OptimizationStatus where
  | discovered
  | pendingApproval
  | approved
  | executing
  | completed
  | failed
  | cancelled
  | expired
deriving DecidableEq, Repr

/-- Values stored in a resource-configuration dict.  The engine only ever
stores strings (`instance_type`, `storage_class`), a list of strings
(`prerequisites`) and the fixed scheduling sub-dict written by
`_calculate_target_config` (lines 203-207), modelled by `sched`. -/
inductive ConfigValue where
  | str (s : String)
  | strs (l : List String)
  | sched (startSchedule stopSchedule timezone : String)
deriving DecidableEq, Repr

/-- `d.get(k)` / `d[k]` lookup on a Python dict. -/
def dictGet {α : Type} : List (String × α) → String → Option α
  | [], _ => none
  | (k', v') :: rest, k => if k' = k then some v' else dictGet rest k

/-- `d[k] = v` on a Python dict: replace in place, else append at the end. -/
def dictSet {α : Type} : List (String × α) → String → α → List (String × α)
  | [], k, v => [(k, v)]
  | (k', v') :: rest, k, v =>
      if k' = k then (k, v) :: rest else (k', v') :: dictSet rest k v

/-- `del d[k]` on a Python dict. -/
def dictRemove {α : Type} : List (String × α) → String → List (String × α)
  | [], _ => []
  | (k', v') :: rest, k =>
      if k' = k then dictRemove rest k else (k', v') :: dictRemove rest k

theorem dictGet_dictSet_self {α : Type} (d : List (String × α)) (k : String) (v : α) :
    dictGet (dictSet d k v) k = some v := by
  induction d with
  | nil => simp [dictGet, dictSet]
  | cons p rest ih =>
      obtain ⟨k', v'⟩ := p
      by_cases h : k' = k <;> simp [dictGet, dictSet, h, ih]

theorem dictGet_dictSet_ne {α : Type} (d : List (String × α)) (k k' : String) (v : α)
    (h : k' ≠ k) : dictGet (dictSet d k v) k' = dictGet d k' := by
  induction d with
  | nil => simp [dictGet, dictSet, Ne.symm h]
  | cons p rest ih =>
      obtain ⟨k₀, v₀⟩ := p
      by_cases h₀ : k₀ = k
      · subst h₀
        simp [dictGet, dictSet, Ne.symm h]
      · by_cases h₁ : k₀ = k' <;> simp [dictGet, dictSet, h₀, h₁, ih, h]

/-- A resource configuration (`Dict[str, Any]` in the source). -/
abbrev Config := List (String × ConfigValue)

/-- `ExecutionStep` (execution_engine.py, lines 46-62); `started_at`,
`completed_at` and `metadata` are elided (see the module conventions). -/
structure ExecutionStep where
  id : String
  name : String
  description : String
  phase : ExecutionPhase
  order : Nat
  timeoutMinutes : Nat
  retryCount : Nat := 0
  maxRetries : Nat := 3
  status : ExecutionStatus := ExecutionStatus.pending
  errorMessage : Option String := none
  rollbackSteps : List String := []
deriving DecidableEq, Repr

/-- One record of `context.execution_log` (appended at lines 224-231;
the timing fields are elided). -/
structure LogRecord where
  stepId : String
  stepName : String
  status : ExecutionStatus
deriving DecidableEq, Repr

/-- `ExecutionContext` (execution_engine.py, lines 65-78). -/
structure ExecutionContext where
  opportunityId : String
  executionId : String
  resourceId : String
  cloudProvider : String
  region : String
  optimizationType : String
  currentConfig : Config
  targetConfig : Config
  backupData : Config := []
  executionLog : List LogRecord := []
  rollbackData : Config := []
deriving DecidableEq, Repr

/-- `OptimizationExecution` (models/optimization.py, lines 123-147), the
audit record created by `execute_optimization`.  `rollback_required` and
`rollback_completed` are Boolean columns defaulting to `False`; the engine
never assigns either of them.  Timestamps, `actual_savings` and the JSON
log columns are elided. -/
structure OptimizationExecution where
  id : String
  opportunityId : String
  status : OptimizationStatus
  errorMessage : Option String := none
  rollbackRequired : Bool := false
  rollbackCompleted : Bool := false
  executedBy : String
deriving DecidableEq, Repr

/-- The fields of `OptimizationOpportunity` (models/optimization.py) read by
the execution engine; enum-valued columns appear through `.value`, hence as
strings. -/
structure OptimizationOpportunity where
  id : String
  resourceId : String
  optimizationType : String
  cloudProvider : String
  region : String
  estimatedExecutionTime : Nat
deriving DecidableEq, Repr

/-- Behaviour of the external Resource Gateway (`CloudProviderService`)
during one scenario: the config returned by `get_resource_config`, the blob
returned by `create_resource_backup`, and whether
`restore_resource_from_backup` raises. -/
structure GatewayEnv where
  resourceConfig : Config
  backupBlob : Config
  restoreFails : Bool
deriving DecidableEq, Repr

/-- `_calculate_optimal_instance_size` (lines 647-651): the source is a stub
returning the constant `"t3.medium"`. -/
def calculate_optimal_instance_size : ConfigValue := ConfigValue.str "t3.medium"

/-- `_calculate_optimal_storage_class` (lines 653-657): the source is a stub
returning the constant `"STANDARD_IA"`. -/
def calculate_optimal_storage_class : ConfigValue := ConfigValue.str "STANDARD_IA"

/-- `_verify_rollback_success` (lines 641-645): the source is a stub that
returns `True` unconditionally. -/
def verify_rollback_success (_originalConfig _currentConfig : Config) : Bool := true

/-- `_calculate_target_config` (execution_engine.py, lines 191-214).
`target_config = current_config.copy()` is a value copy: the input dict is
never written to afterwards (every later write targets `target_config`
itself, at its top level), which the pure embedding renders by the function
returning a fresh value and leaving `currentConfig` untouched. -/
def calculate_target_config (optimizationType : String) (currentConfig : Config) : Config :=
  let targetConfig := currentConfig
  if optimizationType = "rightsizing" then
    dictSet targetConfig "instance_type" calculate_optimal_instance_size
  else if optimizationType = "scheduling" then
    dictSet targetConfig "scheduling"
      (ConfigValue.sched "0 8 * * 1-5" "0 18 * * 1-5" "UTC")
  else if optimizationType = "storage_optimization" then
    dictSet targetConfig "storage_class" calculate_optimal_storage_class
  else
    targetConfig

/-- Rendering of a config value inside the f-string descriptions. -/
def showConfigVal : Option ConfigValue → String
  | some (ConfigValue.str s) => s
  | some _ => "..."
  | none => "None"

/-- `_execute_rightsizing` (lines 445-461): one Execution-phase step at
order 4. -/
def execute_rightsizing (ctx : ExecutionContext) : List ExecutionStep :=
  [{ id := ctx.executionId ++ "_rightsizing"
     name := "Instance Rightsizing"
     description := "Change instance type from "
       ++ showConfigVal (dictGet ctx.currentConfig "instance_type") ++ " to "
       ++ showConfigVal (dictGet ctx.targetConfig "instance_type")
     phase := ExecutionPhase.execution
     order := 4
     timeoutMinutes := 20
     rollbackSteps := ["Stop instance", "Change instance type back to original",
                       "Start instance"] }]

/-- `_execute_scheduling` (lines 463-478). -/
def execute_scheduling (ctx : ExecutionContext) : List ExecutionStep :=
  [{ id := ctx.executionId ++ "_scheduling"
     name := "Resource Scheduling"
     description := "Configure automatic start/stop schedule"
     phase := ExecutionPhase.execution
     order := 4
     timeoutMinutes := 15
     rollbackSteps := ["Remove scheduled actions", "Start resource manually"] }]

/-- `_execute_unused_resource_removal` (lines 480-495). -/
def execute_unused_resource_removal (ctx : ExecutionContext) : List ExecutionStep :=
  [{ id := ctx.executionId ++ "_removal"
     name := "Unused Resource Removal"
     description := "Remove unused resource"
     phase := ExecutionPhase.execution
     order := 4
     timeoutMinutes := 10
     rollbackSteps := ["Restore from backup", "Recreate resource configuration"] }]

/-- `_execute_storage_optimization` (lines 497-512). -/
def execute_storage_optimization (ctx : ExecutionContext) : List ExecutionStep :=
  [{ id := ctx.executionId ++ "_storage"
     name := "Storage Optimization"
     description := "Migrate to optimal storage class"
     phase := ExecutionPhase.execution
     order := 4
     timeoutMinutes := 30
     rollbackSteps := ["Migrate back to original storage class",
                       "Remove lifecycle policies"] }]

/-- `_execute_reserved_instance_purchase` (lines 514-528). -/
def execute_reserved_instance_purchase (ctx : ExecutionContext) : List ExecutionStep :=
  [{ id := ctx.executionId ++ "_reserved"
     name := "Reserved Instance Purchase"
     description := "Purchase reserved instances"
     phase := ExecutionPhase.execution
     order := 4
     timeoutMinutes := 5
     rollbackSteps := ["Cancel reserved instance purchase"] }]

/-- `_execute_spot_instance_migration` (lines 530-546). -/
def execute_spot_instance_migration (ctx : ExecutionContext) : List ExecutionStep :=
  [{ id := ctx.executionId ++ "_spot"
     name := "Spot Instance Migration"
     description := "Migrate to spot instances"
     phase := ExecutionPhase.execution
     order := 4
     timeoutMinutes := 25
     rollbackSteps := ["Stop spot instance", "Start on-demand instance",
                       "Update load balancer configuration"] }]

/-- The `execution_handlers` dict registered by
`_register_execution_handlers` (lines 99-108). -/
def executionHandlers : List (String × (ExecutionContext → List ExecutionStep)) :=
  [("rightsizing", execute_rightsizing),
   ("scheduling", execute_scheduling),
   ("unused_resources", execute_unused_resource_removal),
   ("storage_optimization", execute_storage_optimization),
   ("reserved_instances", execute_reserved_instance_purchase),
   ("spot_instances", execute_spot_instance_migration)]

/-- The keys of `execution_handlers`. -/
def handlerKeys : List String :=
  ["rightsizing", "scheduling", "unused_resources", "storage_optimization",
   "reserved_instances", "spot_instances"]

/-- `_get_optimization_specific_steps` (lines 308-315): dict lookup, raising
`ValueError` when no handler is registered for the type. -/
def get_optimization_specific_steps (ctx : ExecutionContext) :
    Except String (List ExecutionStep) :=
  match dictGet executionHandlers ctx.optimizationType with
  | some handler => Except.ok (handler ctx)
  | none => Except.error
      ("No handler found for optimization type: " ++ ctx.optimizationType)

/-- The six generic phase steps built by `_create_execution_steps`
(lines 251-300). -/
def baseSteps (ctx : ExecutionContext) (opportunity : OptimizationOpportunity) :
    List ExecutionStep :=
  [{ id := ctx.executionId ++ "_preparation"
     name := "Preparation"
     description := "Prepare execution environment"
     phase := ExecutionPhase.preparation
     order := 1
     timeoutMinutes := 5 },
   { id := ctx.executionId ++ "_validation"
     name := "Validation"
     description := "Validate current state and prerequisites"
     phase := ExecutionPhase.validation
     order := 2
     timeoutMinutes := 10 },
   { id := ctx.executionId ++ "_backup"
     name := "Backup"
     description := "Create backup of current configuration"
     phase := ExecutionPhase.backup
     order := 3
     timeoutMinutes := 15 },
   { id := ctx.executionId ++ "_execution"
     name := "Execution"
     description := "Execute " ++ ctx.optimizationType ++ " optimization"
     phase := ExecutionPhase.execution
     order := 4
     timeoutMinutes := opportunity.estimatedExecutionTime },
   { id := ctx.executionId ++ "_verification"
     name := "Verification"
     description := "Verify optimization was successful"
     phase := ExecutionPhase.verification
     order := 5
     timeoutMinutes := 10 },
   { id := ctx.executionId ++ "_completion"
     name := "Completion"
     description := "Complete execution and cleanup"
     phase := ExecutionPhase.completion
     order := 6
     timeoutMinutes := 5 }]

/-- Stable insertion used by `sortByOrder`: the new element goes after every
already-placed element whose `order` is ≤ its own. -/
def insertByOrder (x : ExecutionStep) : List ExecutionStep → List ExecutionStep
  | [] => [x]
  | y :: rest =>
      if y.order ≤ x.order then y :: insertByOrder x rest else x :: y :: rest

/-- `sorted(all_steps, key=lambda x: x.order)` (line 306).  Python's sort is
stable; this left-to-right insertion sort preserves the relative order of
steps with equal `order` (in particular the generic Execution step stays
ahead of the optimization-specific step, both at order 4). -/
def sortByOrder (l : List ExecutionStep) : List ExecutionStep :=
  l.foldl (fun acc x => insertByOrder x acc) []

/-- `_create_execution_steps` (lines 248-306): the six generic steps plus the
optimization-specific steps, sorted (stably) by `order`. -/
def create_execution_steps (ctx : ExecutionContext)
    (opportunity : OptimizationOpportunity) : Except String (List ExecutionStep) :=
  match get_optimization_specific_steps ctx with
  | Except.error msg => Except.error msg
  | Except.ok optimizationSteps =>
      Except.ok (sortByOrder (baseSteps ctx opportunity ++ optimizationSteps))

/-- Outcome of one call to `_execute_step` on a step, together with the
observables the properties talk about:
* `final` — the step record when the call returns or raises; the call
  returns normally exactly when `final.status = completed`, and re-raises
  the last exception when `final.status = failed` (line 363);
* `attempts` — how many times the step's body was attempted;
* `depth` — the number of nested `_execute_step` stack frames (the retry at
  line 361 is a self-call, so each retry adds a frame);
* `states` — the `(status, retryCount)` pairs the step holds over time, in
  order: each attempt contributes `(running, rc)` (line 320) and then either
  `(completed, rc)` (line 337) or `(failed, rc+1)` (lines 347-349), the
  latter persisting through the 5-second backoff sleep at line 360. -/
structure StepRun where
  final : ExecutionStep
  attempts : Nat
  depth : Nat
  states : List (ExecutionStatus × Nat)
deriving DecidableEq, Repr

/-- `_execute_step` (execution_engine.py, lines 317-363), parametrised by the
per-attempt behaviour `env` of the phase action (`none` = the body ran to
completion, `some msg` = it raised `msg`; this folds every gateway call of
lines 324-335 into one outcome, faithful to the catch-all `except` at
line 346).  The source recurses on the self-call at line 361; `fuel` makes
that recursion structural for Lean.  `execute_step` below supplies
`maxRetries - retryCount + 1` fuel, which strictly dominates the number of
self-calls, so the out-of-fuel branch is unreachable from it (it conservatively
behaves like the exhausted-retries branch). -/
def execute_step_go (env : Nat → Option String) :
    Nat → Nat → ExecutionStep → StepRun
  | 0, attempt, step =>
      -- out-of-fuel guard, unreachable from `execute_step` (its fuel strictly
      -- dominates the number of self-calls); behaves like a final attempt
      let running := { step with status := ExecutionStatus.running }
      match env attempt with
      | none =>
          let done := { running with status := ExecutionStatus.completed }
          { final := done, attempts := 1, depth := 1,
            states := [(ExecutionStatus.running, running.retryCount),
                       (ExecutionStatus.completed, done.retryCount)] }
      | some msg =>
          let failed := { running with
                          status := ExecutionStatus.failed,
                          errorMessage := some msg,
                          retryCount := running.retryCount + 1 }
          { final := failed, attempts := 1, depth := 1,
            states := [(ExecutionStatus.running, running.retryCount),
                       (ExecutionStatus.failed, failed.retryCount)] }
  | fuel + 1, attempt, step =>
      let running := { step with status := ExecutionStatus.running }
      match env attempt with
      | none =>
          let done := { running with status := ExecutionStatus.completed }
          { final := done, attempts := 1, depth := 1,
            states := [(ExecutionStatus.running, running.retryCount),
                       (ExecutionStatus.completed, done.retryCount)] }
      | some msg =>
          let failed := { running with
                          status := ExecutionStatus.failed,
                          errorMessage := some msg,
                          retryCount := running.retryCount + 1 }
          if failed.retryCount < failed.maxRetries then
            let rest := execute_step_go env fuel (attempt + 1) failed
            { final := rest.final, attempts := rest.attempts + 1,
              depth := rest.depth + 1,
              states := (ExecutionStatus.running, running.retryCount) ::
                        (ExecutionStatus.failed, failed.retryCount) ::
                        rest.states }
          else
            { final := failed, attempts := 1, depth := 1,
              states := [(ExecutionStatus.running, running.retryCount),
                         (ExecutionStatus.failed, failed.retryCount)] }

/-- `_execute_step` entry point: attempts start at index 0. -/
def execute_step (env : Nat → Option String) (step : ExecutionStep) : StepRun :=
  execute_step_go env (step.maxRetries - step.retryCount + 1) 0 step

/-- Events emitted by the pipeline driver, used to state sequencing
properties: step `idx` of the ordered list started / reached a terminal
status. -/
inductive StepEvent where
  | started (idx : Nat)
  | finished (idx : Nat) (status : ExecutionStatus)
deriving DecidableEq, Repr

/-- Result of `_run_execution_pipeline`'s step loop (lines 221-246). -/
structure PipelineRun where
  result : Except String Unit
  ctx : ExecutionContext
  events : List StepEvent
deriving Repr

/-- The message of the `TypeError` raised by the call
`self._rollback_execution(context, step)` at line 245: `_rollback_execution`
(line 581) accepts only `context`, so the call raises at binding time,
before any of the function's body (and hence any gateway call) runs, and
that `TypeError` is what propagates out of `_run_execution_pipeline`. -/
def rollbackArityError : String :=
  "TypeError: _rollback_execution takes 2 positional arguments but 3 were given"

/-- Effect on the context of a step that completed normally: the loop body
appends a record to `execution_log` (lines 224-231), and a completed
Backup-phase step has stored the gateway's backup blob into
`context.backup_data` (line 401; the store happens only on an attempt that
runs to completion, since the gateway call at line 397 precedes it). -/
def applyStepEffect (env : GatewayEnv) (ctx : ExecutionContext)
    (step : ExecutionStep) : ExecutionContext :=
  let ctx' := if step.phase = ExecutionPhase.backup then
      { ctx with backupData := env.backupBlob }
    else ctx
  { ctx' with executionLog := ctx'.executionLog ++
      [{ stepId := step.id, stepName := step.name, status := step.status }] }

/-- The `for step in execution_steps` loop of `_run_execution_pipeline`
(lines 221-246).  When `_execute_step` raises (exhausted retries), the
`except` block's rollback call raises `TypeError` (see
`rollbackArityError`) and the loop aborts; the abort guard at lines 233-235
can never fire on the normal path because `_execute_step` only returns
normally with status Completed. -/
def run_pipeline_steps (env : GatewayEnv) (stepEnv : Nat → Nat → Option String) :
    ExecutionContext → Nat → List ExecutionStep → PipelineRun
  | ctx, _, [] => { result := Except.ok (), ctx := ctx, events := [] }
  | ctx, idx, step :: rest =>
      let r := execute_step (stepEnv idx) step
      if r.final.status = ExecutionStatus.completed then
        let ctx' := applyStepEffect env ctx r.final
        let pr := run_pipeline_steps env stepEnv ctx' (idx + 1) rest
        { pr with events := StepEvent.started idx ::
            StepEvent.finished idx ExecutionStatus.completed :: pr.events }
      else
        { result := Except.error rollbackArityError, ctx := ctx,
          events := [StepEvent.started idx,
                     StepEvent.finished idx ExecutionStatus.failed] }

/-- `_rollback_execution`'s `try` body (lines 583-613): restore from backup
when `backup_data` is truthy (a non-empty dict), then re-read the config and
verify.  The returned `Nat` counts the `restore_resource_from_backup` calls
issued (0 or 1); the `Except` is the body's outcome before the
`except` clause at line 615 is applied. -/
def rollback_execution_core (env : GatewayEnv) (ctx : ExecutionContext) :
    Except String Bool × Nat :=
  if ctx.backupData.isEmpty then
    (Except.ok (verify_rollback_success ctx.currentConfig env.resourceConfig), 0)
  else if env.restoreFails then
    (Except.error "RestoreError", 1)
  else
    (Except.ok (verify_rollback_success ctx.currentConfig env.resourceConfig), 1)

/-- `_rollback_execution` (lines 581-620): any exception from the body is
caught at line 615, logged, and converted into the return value `False`. -/
def rollback_execution (env : GatewayEnv) (ctx : ExecutionContext) : Bool × Nat :=
  match rollback_execution_core env ctx with
  | (Except.ok b, n) => (b, n)
  | (Except.error _, n) => (false, n)

/-- `_handle_execution_failure`'s `try` body (lines 551-573): mark the
execution Failed, run the rollback, and on rollback success execute
`execution.status = OptimizationStatus.ROLLED_BACK` (line 566) — which
raises `AttributeError`, because `OptimizationStatus` (models/optimization.py)
has no `ROLLED_BACK` member.  The triple is (body outcome, execution record
as mutated so far, restore calls issued). -/
def handle_execution_failure_core (env : GatewayEnv)
    (execution : OptimizationExecution) (ctx : ExecutionContext)
    (errorMessage : String) : Except String Unit × OptimizationExecution × Nat :=
  let failed := { execution with
                  status := OptimizationStatus.failed,
                  errorMessage := some errorMessage }
  let (rollbackSuccess, restoreCalls) := rollback_execution env ctx
  if rollbackSuccess then
    (Except.error "AttributeError: ROLLED_BACK", failed, restoreCalls)
  else
    (Except.ok (), failed, restoreCalls)

/-- `_handle_execution_failure` (lines 548-579): the outer `except` at
line 575 catches any exception from the body (including the
`AttributeError` of line 566), logs it and returns normally, so the
execution record keeps the mutations made before the raise. -/
def handle_execution_failure (env : GatewayEnv)
    (execution : OptimizationExecution) (ctx : ExecutionContext)
    (errorMessage : String) : OptimizationExecution × Nat :=
  match handle_execution_failure_core env execution ctx errorMessage with
  | (_, e, n) => (e, n)

/-- One value of the `self.active_executions` dict (lines 132-136): the
execution record, the context and the literal
`"status": ExecutionStatus.RUNNING` stored at registration. -/
structure EngineEntry where
  execution : OptimizationExecution
  context : ExecutionContext
  status : ExecutionStatus
deriving DecidableEq, Repr

/-- The engine's mutable state: `self.active_executions`, a dict keyed by
`execution.id` (line 132).  (`self.execution_handlers` is the fixed dict
`executionHandlers`; `self.cloud_provider_service` is the gateway.) -/
structure EngineState where
  activeExecutions : List (String × EngineEntry)
deriving DecidableEq, Repr

/-- `_create_execution_context` (lines 169-189): read the current config
from the gateway, compute the target config, and build the context. -/
def create_execution_context (env : GatewayEnv)
    (opportunity : OptimizationOpportunity) (executionId : String) :
    ExecutionContext :=
  let currentConfig := env.resourceConfig
  let targetConfig := calculate_target_config opportunity.optimizationType currentConfig
  { opportunityId := opportunity.id
    executionId := executionId
    resourceId := opportunity.resourceId
    cloudProvider := opportunity.cloudProvider
    region := opportunity.region
    optimizationType := opportunity.optimizationType
    currentConfig := currentConfig
    targetConfig := targetConfig }

/-- The admission prefix of `execute_optimization` (lines 119-136): create
the execution record (status EXECUTING), build the context, and register the
entry in `active_executions` keyed by the fresh `execution.id` — with no
check whatsoever against already-registered executions for the same
resource.  `executionId` stands for the `uuid.uuid4()` drawn at line 121.
Everything after this point in `execute_optimization` is behind `await`
suspension points, so other submissions can interleave here. -/
def admit_execution (env : GatewayEnv) (st : EngineState)
    (opportunity : OptimizationOpportunity) (approverId executionId : String) :
    OptimizationExecution × ExecutionContext × EngineState :=
  let execution : OptimizationExecution :=
    { id := executionId
      opportunityId := opportunity.id
      status := OptimizationStatus.executing
      executedBy := approverId }
  let context := create_execution_context env opportunity executionId
  (execution, context,
   { activeExecutions := dictSet st.activeExecutions executionId
       { execution := execution, context := context,
         status := ExecutionStatus.running } })

/-- Everything `execute_optimization` (lines 110-167) lets the outside
observe. -/
structure ExecOutcome where
  result : Except String Unit
  execution : OptimizationExecution
  restoreCalls : Nat
  finalState : EngineState
  events : List StepEvent
deriving Repr

/-- `execute_optimization` (execution_engine.py, lines 110-167): admission,
pipeline build and run, failure handling with rollback, and the `finally`
block that deletes the entry from `active_executions`.  On pipeline failure
the original exception is re-raised at line 152 after
`_handle_execution_failure` returns (that handler swallows every internal
error, see `handle_execution_failure`). -/
def execute_optimization (env : GatewayEnv)
    (stepEnv : Nat → Nat → Option String) (st : EngineState)
    (opportunity : OptimizationOpportunity) (approverId executionId : String) :
    ExecOutcome :=
  let admitted := admit_execution env st opportunity approverId executionId
  let execution := admitted.1
  let context := admitted.2.1
  let st₁ := admitted.2.2
  match create_execution_steps context opportunity with
  | Except.error msg =>
      -- raised while building the step list, before any step ran
      let handled := handle_execution_failure env execution context msg
      { result := Except.error msg
        execution := handled.1
        restoreCalls := handled.2
        finalState := { activeExecutions := dictRemove st₁.activeExecutions executionId }
        events := [] }
  | Except.ok steps =>
      let pr := run_pipeline_steps env stepEnv context 0 steps
      match pr.result with
      | Except.ok _ =>
          { result := Except.ok ()
            execution := { execution with status := OptimizationStatus.completed }
            restoreCalls := 0
            finalState := { activeExecutions := dictRemove st₁.activeExecutions executionId }
            events := pr.events }
      | Except.error msg =>
          let handled := handle_execution_failure env execution pr.ctx msg
          { result := Except.error msg
            execution := handled.1
            restoreCalls := handled.2
            finalState := { activeExecutions := dictRemove st₁.activeExecutions executionId }
            events := pr.events }

/-- Everything `cancel_execution` lets the outside observe.  `execution`
is the record as mutated by the call (it stays reachable through whoever
holds the `OptimizationExecution`, even after the registry entry is
deleted). -/
structure CancelOutcome where
  result : Bool
  state : EngineState
  restoreCalls : Nat
  execution : Option OptimizationExecution
deriving Repr

/-- `cancel_execution` (execution_engine.py, lines 676-706).  If the id is
registered it immediately runs `_rollback_execution` on the stored context
(ignoring its Boolean result), marks the record CANCELLED with
`"Cancelled: <reason>"`, deletes the registry entry and returns `True`;
otherwise it returns `False`.  Nothing in the engine's state is a
cancellation flag, and nothing in `_run_execution_pipeline` reads one. -/
def cancel_execution (env : GatewayEnv) (st : EngineState)
    (executionId reason : String) : CancelOutcome :=
  match dictGet st.activeExecutions executionId with
  | some entry =>
      -- the Boolean result of `_rollback_execution` is ignored at line 683
      let restoreCalls := (rollback_execution env entry.context).2
      let execution := { entry.execution with
                         status := OptimizationStatus.cancelled,
                         errorMessage := some ("Cancelled: " ++ reason) }
      { result := true
        state := { activeExecutions := dictRemove st.activeExecutions executionId }
        restoreCalls := restoreCalls
        execution := some execution }
  | none =>
      { result := false, state := st, restoreCalls := 0, execution := none }

/-! ### Behaviour of the Step Runner -/

/-- Master lemma about `_execute_step`: under sufficient fuel and with
retries still available, the call either returns with status Completed or
raises with status Failed and `retryCount = maxRetries` and a recorded error
message; the number of nested stack frames equals the number of attempts,
and at most `maxRetries - retryCount` attempts are made. -/
theorem execute_step_go_spec (env : Nat → Option String) :
    ∀ fuel attempt step, step.retryCount < step.maxRetries →
      step.maxRetries - step.retryCount < fuel →
      ((execute_step_go env fuel attempt step).final.status = ExecutionStatus.completed ∨
        ((execute_step_go env fuel attempt step).final.status = ExecutionStatus.failed ∧
         (execute_step_go env fuel attempt step).final.retryCount = step.maxRetries ∧
         (execute_step_go env fuel attempt step).final.errorMessage ≠ none)) ∧
      (execute_step_go env fuel attempt step).depth =
        (execute_step_go env fuel attempt step).attempts ∧
      (execute_step_go env fuel attempt step).attempts ≤
        step.maxRetries - step.retryCount := by
  intro fuel
  induction fuel with
  | zero => intro attempt step h₁ h₂; omega
  | succ f ih =>
      intro attempt step h₁ h₂
      cases henv : env attempt with
      | none =>
          simp [execute_step_go, henv]
          omega
      | some msg =>
          by_cases hrc : step.retryCount + 1 < step.maxRetries
          · have ih' := ih (attempt + 1)
              { step with status := ExecutionStatus.failed,
                          errorMessage := some msg,
                          retryCount := step.retryCount + 1 }
              (by simpa using hrc) (by simp; omega)
            simp only [execute_step_go, henv] at ih' ⊢
            simp only [hrc, if_pos] at ih' ⊢
            simp at ih' ⊢
            obtain ⟨hstat, hdep, hatt⟩ := ih'
            refine ⟨?_, by omega, by omega⟩
            rcases hstat with h | h
            · exact Or.inl h
            · exact Or.inr ⟨h.1, by omega, h.2.2⟩
          · simp [execute_step_go, henv, hrc]
            omega

/-- If the first `k` attempts of a step raise and attempt `k` succeeds,
with `k` retries still available, `_execute_step` ends Completed having
recorded exactly `k` retries. -/
theorem execute_step_go_succeeds (env : Nat → Option String) :
    ∀ k fuel attempt step, step.retryCount + k < step.maxRetries →
      step.maxRetries - step.retryCount < fuel →
      (∀ a, a < k → env (attempt + a) ≠ none) →
      env (attempt + k) = none →
      (execute_step_go env fuel attempt step).final.status =
          ExecutionStatus.completed ∧
      (execute_step_go env fuel attempt step).final.retryCount =
          step.retryCount + k := by
  intro k
  induction k with
  | zero =>
      intro fuel attempt step h₁ h₂ hfail hsucc
      simp only [Nat.add_zero] at hsucc
      cases fuel with
      | zero => omega
      | succ f => simp [execute_step_go, hsucc]
  | succ k ih =>
      intro fuel attempt step h₁ h₂ hfail hsucc
      have h0 : env attempt ≠ none := by
        have := hfail 0 (Nat.succ_pos k)
        simpa using this
      cases henv : env attempt with
      | none => exact absurd henv h0
      | some msg =>
          have hrc : step.retryCount + 1 < step.maxRetries := by omega
          cases fuel with
          | zero => omega
          | succ f =>
              have ih' := ih f (attempt + 1)
                { step with status := ExecutionStatus.failed,
                            errorMessage := some msg,
                            retryCount := step.retryCount + 1 }
                (by simp; omega) (by simp; omega)
                (by
                  intro a ha
                  have := hfail (a + 1) (by omega)
                  simpa [Nat.add_assoc, Nat.add_comm, Nat.add_left_comm] using this)
                (by
                  have : attempt + 1 + k = attempt + (k + 1) := by omega
                  rw [this]; exact hsucc)
              simp [execute_step_go, henv, hrc]
              refine ⟨ih'.1, ?_⟩
              have h2 := ih'.2
              dsimp only at h2
              omega

/-- Specialisation of `execute_step_go_spec` to the entry point
`execute_step` (which always has enough fuel). -/
theorem execute_step_spec (env : Nat → Option String) (step : ExecutionStep)
    (h : step.retryCount < step.maxRetries) :
    ((execute_step env step).final.status = ExecutionStatus.completed ∨
      ((execute_step env step).final.status = ExecutionStatus.failed ∧
       (execute_step env step).final.retryCount = step.maxRetries ∧
       (execute_step env step).final.errorMessage ≠ none)) ∧
    (execute_step env step).depth = (execute_step env step).attempts ∧
    (execute_step env step).attempts ≤ step.maxRetries - step.retryCount :=
  execute_step_go_spec env (step.maxRetries - step.retryCount + 1) 0 step h
    (Nat.lt_succ_self _)

/-- Specialisation of `execute_step_go_succeeds` to the entry point. -/
theorem execute_step_succeeds (env : Nat → Option String) (step : ExecutionStep)
    (k : Nat) (hk : step.retryCount + k < step.maxRetries)
    (hfail : ∀ a, a < k → env a ≠ none) (hsucc : env k = none) :
    (execute_step env step).final.status = ExecutionStatus.completed ∧
    (execute_step env step).final.retryCount = step.retryCount + k :=
  execute_step_go_succeeds env k (step.maxRetries - step.retryCount + 1) 0 step
    hk (Nat.lt_succ_self _)
    (fun a ha => by simpa using hfail a ha) (by simpa using hsucc)

theorem dictGet_eq_none_iff {α : Type} (d : List (String × α)) (k : String) :
    dictGet d k = none ↔ k ∉ d.map Prod.fst := by
  induction d with
  | nil => simp [dictGet]
  | cons p rest ih =>
      obtain ⟨k₀, v₀⟩ := p
      by_cases h : k₀ = k
      · subst h
        simp [dictGet]
      · have hne : k ≠ k₀ := fun hh => h hh.symm
        simp [dictGet, h, ih, hne]

theorem handlerKeys_eq : executionHandlers.map Prod.fst = handlerKeys := rfl

/-- The mutation of lines 558-559: mark the execution record Failed and
record the error message. -/
def markFailed (execution : OptimizationExecution) (msg : String) :
    OptimizationExecution :=
  { execution with
    status := OptimizationStatus.failed
    errorMessage := some msg }

/-- When no backup was captured (`backup_data` is the empty dict),
`_handle_execution_failure` issues no restore call, the rollback
"succeeds" vacuously, the attempt to mark the execution ROLLED_BACK raises
`AttributeError`, and the swallowed exception leaves the record Failed. -/
theorem handle_execution_failure_no_backup (env : GatewayEnv)
    (execution : OptimizationExecution) (ctx : ExecutionContext) (msg : String)
    (hb : ctx.backupData = []) :
    handle_execution_failure env execution ctx msg = (markFailed execution msg, 0) := by
  simp [handle_execution_failure, handle_execution_failure_core, markFailed,
        rollback_execution, rollback_execution_core, verify_rollback_success, hb]

/-- When a backup exists but the gateway's restore raises, the error is
absorbed into a `False` result, one restore call was issued, and the record
stays Failed. -/
theorem handle_execution_failure_restore_fails (env : GatewayEnv)
    (execution : OptimizationExecution) (ctx : ExecutionContext) (msg : String)
    (hb : ctx.backupData ≠ []) (hrf : env.restoreFails = true) :
    handle_execution_failure env execution ctx msg = (markFailed execution msg, 1) ∧
    rollback_execution env ctx = (false, 1) := by
  cases hB : ctx.backupData with
  | nil => exact absurd hB hb
  | cons a l =>
      constructor <;>
        simp [handle_execution_failure, handle_execution_failure_core, markFailed,
              rollback_execution, rollback_execution_core, hB, hrf]

/-- The events of a pipeline run are strictly sequential starting at index
`i`: each started step reaches a terminal status before the next starts. -/
def seqFrom : Nat → List StepEvent → Prop
  | _, [] => True
  | i, StepEvent.started j :: StepEvent.finished j' _ :: rest =>
      j = i ∧ j' = i ∧ seqFrom (i + 1) rest
  | _, _ => False

theorem run_pipeline_steps_seq (env : GatewayEnv)
    (stepEnv : Nat → Nat → Option String) :
    ∀ (steps : List ExecutionStep) (ctx : ExecutionContext) (idx : Nat),
      seqFrom idx (run_pipeline_steps env stepEnv ctx idx steps).events := by
  intro steps
  induction steps with
  | nil => intro ctx idx; simp [run_pipeline_steps, seqFrom]
  | cons step rest ih =>
      intro ctx idx
      by_cases hc : (execute_step (stepEnv idx) step).final.status =
          ExecutionStatus.completed
      · simpa [run_pipeline_steps, hc, seqFrom] using
          ih (applyStepEffect env ctx ((execute_step (stepEnv idx) step).final)) (idx + 1)
      · simp [run_pipeline_steps, hc, seqFrom]

/-- Every successfully built pipeline has step orders
`[1, 2, 3, 4, 4, 5, 6]`: the six generic phase steps, with the single
optimization-specific step (order 4) stably sorted directly after the
generic Execution step (order 4). -/
theorem create_execution_steps_orders (ctx : ExecutionContext)
    (opportunity : OptimizationOpportunity) (l : List ExecutionStep)
    (hl : create_execution_steps ctx opportunity = Except.ok l) :
    l.map (fun s => s.order) = [1, 2, 3, 4, 4, 5, 6] := by
  unfold create_execution_steps get_optimization_specific_steps at hl
  simp only [executionHandlers, dictGet] at hl
  split_ifs at hl <;>
    (simp only [Except.ok.injEq] at hl; subst hl; rfl)

/-- Pipeline construction succeeds exactly when a handler is registered for
the optimization type. -/
theorem create_execution_steps_ok_iff (ctx : ExecutionContext)
    (opportunity : OptimizationOpportunity) :
    (∃ l, create_execution_steps ctx opportunity = Except.ok l) ↔
      ctx.optimizationType ∈ handlerKeys := by
  unfold create_execution_steps get_optimization_specific_steps
  cases hd : dictGet executionHandlers ctx.optimizationType with
  | none =>
      have := (dictGet_eq_none_iff executionHandlers ctx.optimizationType).mp hd
      rw [handlerKeys_eq] at this
      simp [this]
  | some handler =>
      have : ctx.optimizationType ∈ handlerKeys := by
        rw [← handlerKeys_eq]
        by_contra hmem
        rw [← dictGet_eq_none_iff executionHandlers ctx.optimizationType] at hmem
        simp [hmem] at hd
      simp [this]

/-! ### Concrete scenarios -/

/-- A rightsizing opportunity for resource `i-abc` (spec §8, Scenario A). -/
def sampleOpportunity : OptimizationOpportunity :=
  { id := "opp-1"
    resourceId := "i-abc"
    optimizationType := "rightsizing"
    cloudProvider := "aws"
    region := "us-east-1"
    estimatedExecutionTime := 30 }

/-- An opportunity whose type has no registered handler. -/
def unsupportedOpportunity : OptimizationOpportunity :=
  { id := "opp-9"
    resourceId := "i-abc"
    optimizationType := "capacity_planning"
    cloudProvider := "aws"
    region := "us-east-1"
    estimatedExecutionTime := 30 }

/-- A gateway holding a `t3.large` instance, with restores succeeding. -/
def sampleGateway : GatewayEnv :=
  { resourceConfig := [("instance_type", ConfigValue.str "t3.large")]
    backupBlob := [("instance_type", ConfigValue.str "t3.large")]
    restoreFails := false }

/-- The same gateway, but `restore_resource_from_backup` raises
`RestoreError`. -/
def restoreFailingGateway : GatewayEnv :=
  { sampleGateway with restoreFails := true }

def emptyEngine : EngineState := { activeExecutions := [] }

/-- The context built for `sampleOpportunity` under execution id `e1`. -/
def sampleContext : ExecutionContext :=
  create_execution_context sampleGateway sampleOpportunity "e1"

/-- The same context after the Backup phase stored the gateway blob. -/
def backedUpContext : ExecutionContext :=
  { sampleContext with backupData := sampleGateway.backupBlob }

/-- The execution record created at admission for `sampleOpportunity`. -/
def sampleExecution : OptimizationExecution :=
  { id := "e1"
    opportunityId := "opp-1"
    status := OptimizationStatus.executing
    executedBy := "alice" }

/-- The Backup step of the pipeline (order 3, default `max_retries = 3`). -/
def sampleStep : ExecutionStep :=
  { id := "e1_backup"
    name := "Backup"
    description := "Create backup of current configuration"
    phase := ExecutionPhase.backup
    order := 3
    timeoutMinutes := 15 }

/-- Step attempts: the first raises `IOError`, the second succeeds. -/
def failFirstAttempt : Nat → Option String :=
  fun attempt => if attempt = 0 then some "IOError" else none

/-- Step attempts: every attempt raises `IOError`. -/
def failEveryAttempt : Nat → Option String := fun _ => some "IOError"

/-- Step attempts: the first two raise `IOError`, the third succeeds. -/
def failTwiceThenSucceed : Nat → Option String :=
  fun attempt => if attempt < 2 then some "IOError" else none

/-- The engine state after two submissions for the same resource `i-abc`
(ids `e1` then `e2`), neither having reached a terminal state. -/
def doubleAdmitState : EngineState :=
  (admit_execution sampleGateway
    (admit_execution sampleGateway emptyEngine sampleOpportunity "alice" "e1").2.2
    sampleOpportunity "bob" "e2").2.2

/-- How many registered executions for `resourceId` are Running. -/
def runningExecutionsFor (resourceId : String) (st : EngineState) : Nat :=
  (st.activeExecutions.filter (fun p =>
    decide (p.2.context.resourceId = resourceId ∧
            p.2.status = ExecutionStatus.running))).length

/-- An engine with one active execution `e1` (backup already captured). -/
def activeEngine : EngineState :=
  { activeExecutions :=
      [("e1", { execution := sampleExecution
                context := backedUpContext
                status := ExecutionStatus.running })] }

/-! ### Claims -/

/-- C1, counterexample: after two submissions for resource `i-abc` are
admitted (ids `e1`, `e2`), the registry holds TWO Running executions for the
same resourceId — the second submission was admitted and registered, not
rejected with ResourceBusy (no such rejection exists anywhere in
`execute_optimization`). -/
theorem c1_counterexample :
    runningExecutionsFor "i-abc" doubleAdmitState = 2 ∧
    ¬ runningExecutionsFor "i-abc" doubleAdmitState ≤ 1 := by decide

/-- C1, amended: `execute_optimization` performs no per-resource admission
control.  Its admission prefix unconditionally registers every submission
keyed by the fresh execution id with status Running, and leaves every other
registered entry — including a Running one for the same resourceId —
untouched, so mutual exclusion per resource is never enforced. -/
theorem c1_theorem (env : GatewayEnv) (st : EngineState)
    (opportunity : OptimizationOpportunity) (approverId executionId : String) :
    (∃ e, dictGet (admit_execution env st opportunity approverId
        executionId).2.2.activeExecutions executionId = some e ∧
      e.status = ExecutionStatus.running ∧
      e.context.resourceId = opportunity.resourceId) ∧
    (∀ k, k ≠ executionId →
      dictGet (admit_execution env st opportunity approverId
        executionId).2.2.activeExecutions k = dictGet st.activeExecutions k) := by
  constructor
  · exact ⟨_, dictGet_dictSet_self _ _ _, rfl, rfl⟩
  · intro k hk
    exact dictGet_dictSet_ne _ _ _ _ hk

/-- C1, witness for the amended theorem at a concrete state: admitting `e1`
into the empty registry leaves the (absent) entry for `e0` unchanged. -/
theorem c1_witness :
    dictGet (admit_execution sampleGateway emptyEngine sampleOpportunity
      "alice" "e1").2.2.activeExecutions "e0" =
    dictGet emptyEngine.activeExecutions "e0" :=
  (c1_theorem sampleGateway emptyEngine sampleOpportunity "alice" "e1").2
    "e0" (by decide)

/-- C2: when the pipeline fails while `backup_data` is still the empty dict
(the Backup phase never completed), the failure handler issues no restore
call to the gateway and the execution record ends Failed with
`rollback_required` still `false`.  (In the source this lands on the Failed
status because `_rollback_execution` vacuously "succeeds" and the attempt
to mark the record ROLLED_BACK raises a swallowed `AttributeError`,
see `handle_execution_failure_core`.) -/
theorem c2_theorem (env : GatewayEnv) (execution : OptimizationExecution)
    (ctx : ExecutionContext) (msg : String) (hb : ctx.backupData = [])
    (hreq : execution.rollbackRequired = false) :
    handle_execution_failure env execution ctx msg = (markFailed execution msg, 0) ∧
    (markFailed execution msg).status = OptimizationStatus.failed ∧
    (markFailed execution msg).rollbackRequired = false := by
  refine ⟨handle_execution_failure_no_backup env execution ctx msg hb, rfl, ?_⟩
  simpa [markFailed] using hreq

/-- C2, witness: Scenario D — the Backup step raised before storing a blob,
so the handler runs on a context with empty `backup_data`. -/
theorem c2_witness :
    handle_execution_failure sampleGateway sampleExecution sampleContext
      "IOError" = (markFailed sampleExecution "IOError", 0) ∧
    (markFailed sampleExecution "IOError").status = OptimizationStatus.failed ∧
    (markFailed sampleExecution "IOError").rollbackRequired = false :=
  c2_theorem sampleGateway sampleExecution sampleContext "IOError" rfl rfl

/-- C3, counterexample: when the gateway restore raises `RestoreError`
during rollback, the error is NOT surfaced: `_rollback_execution`'s body
ends in `Except.error "RestoreError"`, yet the function converts it into
the plain return value `false` (after one issued restore call), and
`_handle_execution_failure` completes normally, returning the Failed record
— the failure is absorbed into a logged Boolean, contradicting the claim
that it is always surfaced to the caller. -/
theorem c3_counterexample :
    (rollback_execution_core restoreFailingGateway backedUpContext).1 =
      Except.error "RestoreError" ∧
    rollback_execution restoreFailingGateway backedUpContext = (false, 1) ∧
    handle_execution_failure restoreFailingGateway sampleExecution
      backedUpContext "step failed" = (markFailed sampleExecution "step failed", 1) :=
  ⟨rfl, rfl, rfl⟩

/-- C3, amended: a gateway `RestoreError` during rollback is caught inside
`_rollback_execution` and converted into a logged `false` result; the
execution's final state is Failed with `rollback_completed = false`;
the restore failure itself is not re-raised (only the original pipeline
exception propagates to the caller, at line 152). -/
theorem c3_theorem (env : GatewayEnv) (execution : OptimizationExecution)
    (ctx : ExecutionContext) (msg : String) (hb : ctx.backupData ≠ [])
    (hrf : env.restoreFails = true)
    (hrc : execution.rollbackCompleted = false) :
    rollback_execution env ctx = (false, 1) ∧
    handle_execution_failure env execution ctx msg = (markFailed execution msg, 1) ∧
    (markFailed execution msg).status = OptimizationStatus.failed ∧
    (markFailed execution msg).rollbackCompleted = false := by
  obtain ⟨h1, h2⟩ :=
    handle_execution_failure_restore_fails env execution ctx msg hb hrf
  exact ⟨h2, h1, rfl, by simpa [markFailed] using hrc⟩

/-- C3, witness for the amended theorem at a concrete failing restore. -/
theorem c3_witness :
    rollback_execution restoreFailingGateway backedUpContext = (false, 1) ∧
    handle_execution_failure restoreFailingGateway sampleExecution
      backedUpContext "m" = (markFailed sampleExecution "m", 1) ∧
    (markFailed sampleExecution "m").status = OptimizationStatus.failed ∧
    (markFailed sampleExecution "m").rollbackCompleted = false :=
  c3_theorem restoreFailingGateway sampleExecution backedUpContext "m"
    (by decide) rfl rfl

/-- C4, counterexample: a step whose first attempt raises is observably in
state `(Failed, retryCount = 1)` — recorded before the 5-second backoff and
the retry — while `retryCount = 1 < maxRetries = 3`, so the step's status
becomes Failed before retryCount has reached maxRetries. -/
theorem c4_counterexample :
    (ExecutionStatus.failed, 1) ∈ (execute_step failFirstAttempt sampleStep).states ∧
    1 < sampleStep.maxRetries := by decide

/-- C4, amended: the step is transiently Failed after every failed attempt
(with `retryCount < maxRetries` between attempts), but the property holds of
the Step Runner's final state: when `_execute_step` terminates with status
Failed (i.e. raises), `retryCount` has reached exactly `maxRetries`. -/
theorem c4_theorem (env : Nat → Option String) (step : ExecutionStep)
    (h0 : step.retryCount = 0) (h1 : 1 ≤ step.maxRetries)
    (hf : (execute_step env step).final.status = ExecutionStatus.failed) :
    (execute_step env step).final.retryCount = step.maxRetries := by
  have hs := execute_step_spec env step (by omega)
  rcases hs.1 with h | h
  · rw [h] at hf
    exact absurd hf (by decide)
  · exact h.2.1

/-- C4, witness: the Backup step with every attempt raising ends Failed at
`retryCount = maxRetries`. -/
theorem c4_witness :
    (execute_step failEveryAttempt sampleStep).final.retryCount =
      sampleStep.maxRetries :=
  c4_theorem failEveryAttempt sampleStep rfl (by decide) (by decide)

/-- C5, counterexample: the retry of `_execute_step` is a recursive
self-call (line 361), not an iterative loop — with every attempt failing,
the default step reaches a nested stack depth of 3 `_execute_step` frames,
not the single frame an iterative retry would use. -/
theorem c5_counterexample :
    (execute_step failEveryAttempt sampleStep).depth = 3 ∧
    (execute_step failEveryAttempt sampleStep).depth ≠ 1 := by decide

/-- C5, amended: the retry loop is bounded but implemented by recursion:
each exception increments `retryCount` and retries via a self-call, so the
stack depth equals the number of attempts and is bounded by `maxRetries`
(hence no step is attempted more than `maxRetries` times, a fortiori at
most `maxRetries + 1`); on exhaustion the step is Failed with its
`errorMessage` recorded, and the failure propagates (the run ends with
status Failed rather than Completed). -/
theorem c5_theorem (env : Nat → Option String) (step : ExecutionStep)
    (h0 : step.retryCount = 0) (h1 : 1 ≤ step.maxRetries) :
    (execute_step env step).depth = (execute_step env step).attempts ∧
    (execute_step env step).attempts ≤ step.maxRetries ∧
    (execute_step env step).attempts ≤ step.maxRetries + 1 ∧
    ((execute_step env step).final.status = ExecutionStatus.completed ∨
      ((execute_step env step).final.status = ExecutionStatus.failed ∧
       (execute_step env step).final.retryCount = step.maxRetries ∧
       (execute_step env step).final.errorMessage ≠ none)) := by
  have hs := execute_step_spec env step (by omega)
  have hb := hs.2.2
  exact ⟨hs.2.1, by omega, by omega, hs.1⟩

/-- C5, witness for the amended theorem on the concrete Backup step. -/
theorem c5_witness :
    (execute_step failFirstAttempt sampleStep).depth =
      (execute_step failFirstAttempt sampleStep).attempts ∧
    (execute_step failFirstAttempt sampleStep).attempts ≤ sampleStep.maxRetries ∧
    (execute_step failFirstAttempt sampleStep).attempts ≤ sampleStep.maxRetries + 1 ∧
    ((execute_step failFirstAttempt sampleStep).final.status =
        ExecutionStatus.completed ∨
      ((execute_step failFirstAttempt sampleStep).final.status =
          ExecutionStatus.failed ∧
       (execute_step failFirstAttempt sampleStep).final.retryCount =
          sampleStep.maxRetries ∧
       (execute_step failFirstAttempt sampleStep).final.errorMessage ≠ none)) :=
  c5_theorem failFirstAttempt sampleStep rfl (by decide)

/-- C6: a step that fails exactly `k < maxRetries` times and succeeds on the
next attempt ends with status Completed and `retryCount = k`. -/
theorem c6_theorem (env : Nat → Option String) (step : ExecutionStep) (k : Nat)
    (h0 : step.retryCount = 0) (hk : k < step.maxRetries)
    (hfail : ∀ a, a < k → env a ≠ none) (hsucc : env k = none) :
    (execute_step env step).final.status = ExecutionStatus.completed ∧
    (execute_step env step).final.retryCount = k := by
  have hs := execute_step_succeeds env step k (by omega) hfail hsucc
  exact ⟨hs.1, by omega⟩

/-- C6, witness: two failures then success ends Completed with
`retryCount = 2`. -/
theorem c6_witness :
    (execute_step failTwiceThenSucceed sampleStep).final.status =
      ExecutionStatus.completed ∧
    (execute_step failTwiceThenSucceed sampleStep).final.retryCount = 2 :=
  c6_theorem failTwiceThenSucceed sampleStep 2 rfl (by decide) (by decide)
    (by decide)

/-- C7, counterexample: the pipeline built for a rightsizing execution has
step orders `[1, 2, 3, 4, 4, 5, 6]` — the generic Execution step and the
optimization-specific "Instance Rightsizing" step BOTH carry order 4 — so
the executed sequence is not strictly increasing in `order`. -/
theorem c7_counterexample :
    ((create_execution_steps sampleContext sampleOpportunity).toOption.getD
      []).map (fun s => s.order) = [1, 2, 3, 4, 4, 5, 6] ∧
    ¬ List.Chain' (· < ·) [1, 2, 3, 4, 4, 5, 6] := by
  exact ⟨rfl, by simp [List.chain'_cons]⟩

/-- C7, amended: every successfully built pipeline has step orders
`[1, 2, 3, 4, 4, 5, 6]` — non-decreasing (the six generic phase steps at
orders 1-6 with the optimization-specific Execution step inserted at
order 4, tied with the generic Execution step) — and the driver runs the
steps strictly sequentially: each started step reaches a terminal status
before the next one starts. -/
theorem c7_theorem (env : GatewayEnv) (stepEnv : Nat → Nat → Option String)
    (ctx : ExecutionContext) (opportunity : OptimizationOpportunity)
    (l : List ExecutionStep)
    (hl : create_execution_steps ctx opportunity = Except.ok l) :
    l.map (fun s => s.order) = [1, 2, 3, 4, 4, 5, 6] ∧
    List.Chain' (· ≤ ·) (l.map (fun s => s.order)) ∧
    seqFrom 0 (run_pipeline_steps env stepEnv ctx 0 l).events := by
  have ho := create_execution_steps_orders ctx opportunity l hl
  refine ⟨ho, ?_, run_pipeline_steps_seq env stepEnv l ctx 0⟩
  rw [ho]
  simp [List.chain'_cons]

/-- C7, witness for the amended theorem on the concrete rightsizing
pipeline with every step succeeding. -/
theorem c7_witness :
    ((create_execution_steps sampleContext sampleOpportunity).toOption.getD
      []).map (fun s => s.order) = [1, 2, 3, 4, 4, 5, 6] ∧
    List.Chain' (· ≤ ·)
      (((create_execution_steps sampleContext sampleOpportunity).toOption.getD
        []).map (fun s => s.order)) ∧
    seqFrom 0 (run_pipeline_steps sampleGateway (fun _ _ => none)
      sampleContext 0
      ((create_execution_steps sampleContext sampleOpportunity).toOption.getD
        [])).events :=
  c7_theorem sampleGateway (fun _ _ => none) sampleContext sampleOpportunity
    ((create_execution_steps sampleContext sampleOpportunity).toOption.getD [])
    rfl

/-- C8: pipeline construction fails (with the ValueError the spec names
`UnsupportedOptimizationType`) exactly when no handler is registered for
the opportunity's type; such a failure is not retried (no step ever runs:
the event trace is empty) and performs no resource rollback (no restore
call is issued, and the execution ends Failed — nothing was changed). -/
theorem c8_theorem (env : GatewayEnv) (stepEnv : Nat → Nat → Option String)
    (st : EngineState) (opportunity : OptimizationOpportunity)
    (approverId executionId : String) :
    ((∃ l, create_execution_steps
        (create_execution_context env opportunity executionId) opportunity =
          Except.ok l) ↔ opportunity.optimizationType ∈ handlerKeys) ∧
    (opportunity.optimizationType ∉ handlerKeys →
      (execute_optimization env stepEnv st opportunity approverId
          executionId).result =
        Except.error ("No handler found for optimization type: " ++
          opportunity.optimizationType) ∧
      (execute_optimization env stepEnv st opportunity approverId
          executionId).events = [] ∧
      (execute_optimization env stepEnv st opportunity approverId
          executionId).restoreCalls = 0 ∧
      (execute_optimization env stepEnv st opportunity approverId
          executionId).execution.status = OptimizationStatus.failed ∧
      (execute_optimization env stepEnv st opportunity approverId
          executionId).execution.rollbackRequired = false) := by
  constructor
  · exact create_execution_steps_ok_iff
      (create_execution_context env opportunity executionId) opportunity
  · intro hmem
    have hd : dictGet executionHandlers
        (create_execution_context env opportunity executionId).optimizationType =
          none := by
      rw [dictGet_eq_none_iff, handlerKeys_eq]
      exact hmem
    have hcreate : create_execution_steps
        (create_execution_context env opportunity executionId) opportunity =
        Except.error ("No handler found for optimization type: " ++
          opportunity.optimizationType) := by
      unfold create_execution_steps get_optimization_specific_steps
      rw [hd]
      rfl
    have hhandle := handle_execution_failure_no_backup env
      { id := executionId
        opportunityId := opportunity.id
        status := OptimizationStatus.executing
        executedBy := approverId }
      (create_execution_context env opportunity executionId)
      ("No handler found for optimization type: " ++
        opportunity.optimizationType) rfl
    simp only [execute_optimization, admit_execution]
    rw [hcreate]
    simp [hhandle, markFailed]

/-- C8, witness: a submission of type `capacity_planning` (no handler). -/
theorem c8_witness :
    (execute_optimization sampleGateway (fun _ _ => none) emptyEngine
        unsupportedOpportunity "alice" "e9").result =
      Except.error ("No handler found for optimization type: " ++
        unsupportedOpportunity.optimizationType) ∧
    (execute_optimization sampleGateway (fun _ _ => none) emptyEngine
        unsupportedOpportunity "alice" "e9").events = [] ∧
    (execute_optimization sampleGateway (fun _ _ => none) emptyEngine
        unsupportedOpportunity "alice" "e9").restoreCalls = 0 ∧
    (execute_optimization sampleGateway (fun _ _ => none) emptyEngine
        unsupportedOpportunity "alice" "e9").execution.status =
      OptimizationStatus.failed ∧
    (execute_optimization sampleGateway (fun _ _ => none) emptyEngine
        unsupportedOpportunity "alice" "e9").execution.rollbackRequired = false :=
  (c8_theorem sampleGateway (fun _ _ => none) emptyEngine
    unsupportedOpportunity "alice" "e9").2 (by decide)

/-- C9, counterexample: cancelling the active execution `e1` does not set
any flag to be observed between steps — the very call performs the rollback
itself (one restore call is issued inside `cancel_execution`), immediately
removes the registry entry and reports success, with no step boundary in
between. -/
theorem c9_counterexample :
    (cancel_execution sampleGateway activeEngine "e1"
      "user requested").restoreCalls = 1 ∧
    (cancel_execution sampleGateway activeEngine "e1"
      "user requested").state.activeExecutions = [] ∧
    (cancel_execution sampleGateway activeEngine "e1"
      "user requested").result = true :=
  ⟨rfl, rfl, rfl⟩

/-- C9, amended: `cancel_execution` is immediate, not cooperative: if the
execution id is registered it performs the rollback right away (issuing a
restore call when a backup exists, ignoring the rollback's Boolean result),
marks the record Cancelled with message `"Cancelled: <reason>"`, deletes
the registry entry and returns `true`; if the id is unknown it returns
`false` and changes nothing.  No cancellation flag exists, and the Step
Runner never observes one between steps. -/
theorem c9_theorem (env : GatewayEnv) (st : EngineState)
    (executionId reason : String) :
    (∀ entry, dictGet st.activeExecutions executionId = some entry →
      cancel_execution env st executionId reason =
        { result := true
          state := { activeExecutions :=
            dictRemove st.activeExecutions executionId }
          restoreCalls := (rollback_execution env entry.context).2
          execution := some { entry.execution with
            status := OptimizationStatus.cancelled
            errorMessage := some ("Cancelled: " ++ reason) } }) ∧
    (dictGet st.activeExecutions executionId = none →
      cancel_execution env st executionId reason =
        { result := false, state := st, restoreCalls := 0,
          execution := none }) := by
  constructor
  · intro entry h
    simp [cancel_execution, h]
  · intro h
    simp [cancel_execution, h]

/-- C9, witness: cancelling the concrete active execution `e1`. -/
theorem c9_witness :
    cancel_execution sampleGateway activeEngine "e1" "user requested" =
      { result := true
        state := { activeExecutions :=
          dictRemove activeEngine.activeExecutions "e1" }
        restoreCalls :=
          (rollback_execution sampleGateway backedUpContext).2
        execution := some { sampleExecution with
          status := OptimizationStatus.cancelled
          errorMessage := some ("Cancelled: " ++ "user requested") } } :=
  (c9_theorem sampleGateway activeEngine "e1" "user requested").1
    { execution := sampleExecution
      context := backedUpContext
      status := ExecutionStatus.running } rfl

/-- The single configuration key `_calculate_target_config` may write for a
given optimization type (an unused placeholder for every other type). -/
def targetConfigKey (optimizationType : String) : String :=
  if optimizationType = "rightsizing" then "instance_type"
  else if optimizationType = "scheduling" then "scheduling"
  else if optimizationType = "storage_optimization" then "storage_class"
  else ""

/-- C10: `_calculate_target_config` agrees with `current_config` on every
key other than the single optimization-specific key (`instance_type` for
rightsizing, `scheduling` for scheduling, `storage_class` for
storage_optimization), and for every other optimization type it returns
`current_config` unchanged.  (The input dict itself is never mutated: the
function works on `current_config.copy()` and only ever assigns top-level
keys of the copy, which the pure embedding reflects by leaving
`currentConfig` untouched.) -/
theorem c10_theorem (optimizationType : String) (currentConfig : Config) :
    (∀ k, k ≠ targetConfigKey optimizationType →
      dictGet (calculate_target_config optimizationType currentConfig) k =
        dictGet currentConfig k) ∧
    (optimizationType ∉
        ["rightsizing", "scheduling", "storage_optimization"] →
      calculate_target_config optimizationType currentConfig =
        currentConfig) := by
  unfold calculate_target_config targetConfigKey
  split_ifs with h1 h2 h3
  · exact ⟨fun k hk => dictGet_dictSet_ne _ _ _ _ hk,
      fun hmem => absurd (by simp [h1]) hmem⟩
  · exact ⟨fun k hk => dictGet_dictSet_ne _ _ _ _ hk,
      fun hmem => absurd (by simp [h2]) hmem⟩
  · exact ⟨fun k hk => dictGet_dictSet_ne _ _ _ _ hk,
      fun hmem => absurd (by simp [h3]) hmem⟩
  · exact ⟨fun k _ => rfl, fun _ => rfl⟩

/-- C10, witness: rightsizing leaves the unrelated key `region` alone, and
an `unused_resources` optimization leaves the whole config unchanged. -/
theorem c10_witness :
    dictGet (calculate_target_config "rightsizing"
        sampleGateway.resourceConfig) "region" =
      dictGet sampleGateway.resourceConfig "region" ∧
    calculate_target_config "unused_resources" sampleGateway.resourceConfig =
      sampleGateway.resourceConfig :=
  ⟨(c10_theorem _ sampleGateway.resourceConfig).1 "region" (by decide),
   (c10_theorem _ sampleGateway.resourceConfig).2 (by decide)⟩

end CostOptimizer
